import Mathlib

/-!
Shallow embedding of `src/js/global.js` (front-end layout / navigation /
auth-guard glue).  Browser-provided facilities are made explicit:

* `window.location.pathname` becomes a `String` argument `path`;
* `localStorage` becomes a `Store` record (the two named keys plus the
  remaining key/value pairs, so that `localStorage.clear()` versus
  `localStorage.removeItem` can be distinguished);
* `fetch` outcomes become explicit outcome arguments;
* `JSON.parse` is a host builtin, modelled as a parameter
  `jsonParse : String → Option JValue` returning `none` exactly when the
  builtin throws;
* the document is modelled at the granularity each function needs
  (an id → innerHTML table for `loadComponent`, a node tree for
  `autoFixFormSectionLayout`).

Functions keep their source names.  Effects (navigation, network requests,
console logs, thrown errors) are returned in explicit result records.
-/

/-- JavaScript `String.prototype.startsWith` on character lists. -/
def listStartsWith : List Char → List Char → Bool
  | _, [] => true
  | [], _ :: _ => false
  | a :: as, b :: bs => a == b && listStartsWith as bs

/-- JavaScript `String.prototype.includes` on character lists: `sub` occurs
as a contiguous run somewhere in `l`. -/
def listContainsSub : List Char → List Char → Bool
  | [], sub => listStartsWith [] sub
  | l@(_ :: t), sub => listStartsWith l sub || listContainsSub t sub

/-- JavaScript `s.includes(sub)`. -/
def strIncludes (s sub : String) : Bool :=
  listContainsSub s.data sub.data

/-- JavaScript `s.split(sep)` for a single-character separator, on
character lists: `""` splits to `[""]`, separators at the ends produce
empty fields. -/
def splitChar (sep : Char) : List Char → List (List Char)
  | [] => [[]]
  | c :: rest =>
      let r := splitChar sep rest
      if c == sep then [] :: r
      else
        match r with
        | [] => [[c]]
        | h :: t => (c :: h) :: t

/-- JavaScript `path.split('/')`. -/
def jsSplitSlash (s : String) : List String :=
  (splitChar '/' s.data).map (fun cs => String.mk cs)

/-- Function `getBasePath()` from global.js: `'/' + path.split('/')[1]`.  When the
split has no index 1, JavaScript concatenates `undefined`, producing the
string `/undefined`. -/
def getBasePath (path : String) : String :=
  "/" ++ (jsSplitSlash path).getD 1 "undefined"

/-- The browser key/value store (`localStorage`): the two keys global.js
uses by name, plus all other persisted entries. -/
structure Store where
  authToken : Option String
  userData : Option String
  other : List (String × String)
deriving Repr, DecidableEq

/-- Effect of `localStorage.clear()`: leaves the store with no entries at all. -/
def Store.clearAll : Store := ⟨none, none, []⟩

/-- Result values of JavaScript `JSON.parse`.  `jnull` is the JavaScript
`null`, the only parse result whose property access throws. -/
inductive JValue where
  | jnull
  | jbool (b : Bool)
  | jnum (n : Int)
  | jstr (s : String)
  | jarr (elems : List JValue)
  | jobj (fields : List (String × JValue))

/-- Observable outcome of one `protectPage()` run: the store afterwards,
the URL assigned to `window.location.href` (if any), the final value of
`window.currentUser`, and the message of the thrown `Error` (if any). -/
structure ProtectResult where
  store : Store
  redirect : Option String
  currentUser : Option JValue
  threw : Option String

/-- Function `protectPage()` from global.js.  `jsonParse` models the `JSON.parse`
builtin (`none` = the builtin throws).  The source gates on JavaScript
truthiness, not nullness: `if (!token)` also fires for an empty-string
token, and `if (userData)` skips parsing when `userData` is `null` or the
empty string.  When the parse yields `null`, `window.currentUser` is
assigned before the template literal dereferences `.email` and throws, so
that run also lands in the catch block. -/
def protectPage (jsonParse : String → Option JValue) (path : String)
    (st : Store) : ProtectResult :=
  match st.authToken with
  | none =>
      { store := Store.clearAll
        redirect := some (getBasePath path ++ "/app/login.html")
        currentUser := none
        threw := some "Não autenticado, redirecionando para login." }
  | some t =>
      if t = "" then
        -- the empty string is falsy, so `if (!token)` also takes the failure branch
        { store := Store.clearAll
          redirect := some (getBasePath path ++ "/app/login.html")
          currentUser := none
          threw := some "Não autenticado, redirecionando para login." }
      else
        match st.userData with
        | none => { store := st, redirect := none, currentUser := none, threw := none }
        | some s =>
          if s = "" then
            -- the empty string is falsy, so `if (userData)` skips JSON.parse
            { store := st, redirect := none, currentUser := none, threw := none }
          else
          match jsonParse s with
          | none =>
              { store := Store.clearAll
                redirect := some (getBasePath path ++ "/app/login.html")
                currentUser := none
                threw := some "Dados de usuário corrompidos, redirecionando para login." }
          | some JValue.jnull =>
              { store := Store.clearAll
                redirect := some (getBasePath path ++ "/app/login.html")
                currentUser := some JValue.jnull
                threw := some "Dados de usuário corrompidos, redirecionando para login." }
          | some v =>
              { store := st, redirect := none, currentUser := some v, threw := none }

/-- Function `isAdminContext()` from global.js. -/
def isAdminContext (path : String) : Bool :=
  strIncludes path "/admin/"

/-- The `pageMap` object literal inside `getPageUrl`, as an association
list in source order. -/
def pageMap (basePath : String) : List (String × String) :=
  [ ("dashboard_admin", basePath ++ "/admin/dashboard_admin.html")
  , ("nova-camara", basePath ++ "/admin/nova_camara.html")
  , ("novo-partido", basePath ++ "/admin/novo_partido.html")
  , ("partidos", basePath ++ "/admin/partidos.html")
  , ("configuracoes", basePath ++ "/admin/configuracoes.html")
  , ("relatorios", basePath ++ "/admin/relatorios.html")
  , ("dashboard", basePath ++ "/app/dashboard.html")
  , ("cadastro", basePath ++ "/app/cadastro_de_pautas.html")
  , ("nova_pauta", basePath ++ "/app/nova_pauta.html")
  , ("editar_pauta", basePath ++ "/app/editar_pauta.html")
  , ("vereadores", basePath ++ "/app/vereadores.html")
  , ("editar_vereador", basePath ++ "/app/editar_vereador.html")
  , ("ordem_do_dia", basePath ++ "/app/ordem_do_dia.html")
  , ("relatorio", basePath ++ "/app/relatorio.html")
  , ("perfil", basePath ++ "/app/perfil_camara.html")
  , ("sessoes", basePath ++ "/app/sessoes.html") ]

/-- The keys of the `pageMap` object; they do not depend on the base
path. -/
def pageMapKeys : List String :=
  (pageMap "").map Prod.fst

/-- Function `getPageUrl(pageName)` from global.js; `pageMap[key]` is `undefined`
for an absent key, modelled as `none`. -/
def getPageUrl (path pageName : String) : Option String :=
  let basePath := getBasePath path
  let key := if isAdminContext path && pageName == "dashboard" then "dashboard_admin" else pageName
  (pageMap basePath).lookup key

/-- The sequence of `loadComponent(componentPath, targetElementId)` calls
that `initLayout` issues for a given current path, in call order. -/
def initLayoutLoads (path : String) : List (String × String) :=
  let basePath := getBasePath path
  if strIncludes path "/admin/" then
    [ (basePath ++ "/components/admin_sidebar.html", "sidebar-placeholder")
    , (basePath ++ "/components/admin_header.html", "header-placeholder") ]
  else if strIncludes path "/app/" then
    [ (basePath ++ "/components/app_sidebar.html", "sidebar-placeholder")
    , (basePath ++ "/components/app_header.html", "header-placeholder") ]
  else if strIncludes path "/portal/" then
    [ (basePath ++ "/components/portal_navbar.html", "navbar-placeholder")
    , (basePath ++ "/components/portal_footer.html", "footer-placeholder") ]
  else []

/-- The document as `loadComponent` sees it: elements keyed by id, each
carrying its current innerHTML.  `getElementById` finds the first entry. -/
structure Doc where
  elems : List (String × String)
deriving Repr, DecidableEq

/-- Lookup `document.getElementById`, returning the element's innerHTML. -/
def getElementById (doc : Doc) (eid : String) : Option String :=
  doc.elems.lookup eid

/-- Assignment to `element.innerHTML` for the first element with id `eid`. -/
def setInnerHTML (doc : Doc) (eid content : String) : Doc :=
  ⟨go doc.elems⟩
where
  go : List (String × String) → List (String × String)
    | [] => []
    | (k, v) :: rest => if k == eid then (k, content) :: rest else (k, v) :: go rest

/-- Outcome of the `fetch(componentPath)` in `loadComponent`: a response
with `ok` status carrying the body text, a response with non-ok status, or
a transport error thrown by `fetch` itself. -/
inductive FetchResult where
  | ok (text : String)
  | badStatus
  | netError
deriving Repr, DecidableEq

/-- Observable outcome of one `loadComponent` run: the document
afterwards, the network requests issued, and the console error logs. -/
structure LoadResult where
  doc : Doc
  requests : List String
  logs : List String
deriving Repr, DecidableEq

/-- The `try` block of `loadComponent`: fetch, throw on non-ok status,
otherwise write the body into the target.  `Except.error` is a thrown
JavaScript error. -/
def loadComponentTryBlock (doc : Doc) (componentPath targetElementId : String)
    (outcome : FetchResult) : Except String Doc :=
  match outcome with
  | .ok text => .ok (setInnerHTML doc targetElementId text)
  | .badStatus => .error ("Componente não encontrado: " ++ componentPath)
  | .netError => .error "TypeError: NetworkError when attempting to fetch resource."

/-- The inline error markup rendered by the catch block of `loadComponent`. -/
def componentErrorHtml (componentPath : String) : String :=
  "<p style=\"color:red;\">Erro ao carregar componente: " ++ componentPath ++ "</p>"

/-- Function `loadComponent(componentPath, targetElementId)` from global.js.  The
outer `Except` is the function's own control flow towards its caller: the
catch block converts every thrown error into an inline rendering, so the
result is `Except.ok` when no exception escapes. -/
def loadComponent (doc : Doc) (componentPath targetElementId : String)
    (outcome : FetchResult) : Except String LoadResult :=
  match getElementById doc targetElementId with
  | none => .ok ⟨doc, [], []⟩
  | some _ =>
      match loadComponentTryBlock doc componentPath targetElementId outcome with
      | .ok doc2 => .ok ⟨doc2, [componentPath], []⟩
      | .error e =>
          .ok ⟨setInnerHTML doc targetElementId (componentErrorHtml componentPath),
               [componentPath], ["Erro ao carregar componente: " ++ e]⟩

/-- The authenticated request `logout()` sends when a token is present. -/
structure AuthRequest where
  url : String
  method : String
  authHeader : String
deriving Repr, DecidableEq

/-- Backend outcome of the logout notification: ok response, non-ok
response, or a network error thrown by `fetch`. -/
inductive LogoutFetchOutcome where
  | success
  | failStatus
  | netError
deriving Repr, DecidableEq

/-- Observable outcome of one `logout()` run. -/
structure LogoutResult where
  store : Store
  redirect : Option String
  request : Option AuthRequest
  logs : List String
deriving Repr, DecidableEq

/-- Function `logout()` from global.js: best-effort bearer-authenticated POST when
a token is present, then `removeItem` of the two session keys and a
redirect to the login page, whatever the backend outcome was.  The guard
`if (authToken)` is a truthiness test, so an empty-string token sends no
request either. -/
def logout (path : String) (st : Store) (outcome : LogoutFetchOutcome) : LogoutResult :=
  match st.authToken with
  | none =>
      { store := { st with authToken := none, userData := none }
        redirect := some (getBasePath path ++ "/app/login.html")
        request := none
        logs := [] }
  | some t =>
      if t = "" then
        -- the empty string is falsy, so `if (authToken)` skips the fetch
        { store := { st with authToken := none, userData := none }
          redirect := some (getBasePath path ++ "/app/login.html")
          request := none
          logs := [] }
      else
        let logs :=
          match outcome with
          | .success => ["[AUTH] Token invalidado no servidor com sucesso."]
          | .failStatus =>
              ["A invalidação do token no servidor falhou, mas o logout no cliente prosseguirá."]
          | .netError => ["Erro ao contatar o servidor para logout:"]
        { store := { st with authToken := none, userData := none }
          redirect := some (getBasePath path ++ "/app/login.html")
          request := some ⟨"/api/auth/logout", "POST", "Bearer " ++ t⟩
          logs := logs }

/-- A DOM element for `autoFixFormSectionLayout`: a node identity (DOM
nodes are distinct objects), its class list, and its child elements. -/
inductive Node where
  | mk (nid : Nat) (classes : List String) (children : List Node)

/-- The node identity. -/
def Node.nid : Node → Nat
  | .mk i _ _ => i

/-- The node's class list. -/
def Node.classes : Node → List String
  | .mk _ cls _ => cls

/-- The node's child elements. -/
def Node.children : Node → List Node
  | .mk _ _ cs => cs

/-- Test `element.classList.contains(c)` / matching the class selector `.c`. -/
def Node.hasClass (n : Node) (c : String) : Bool :=
  n.classes.contains c

mutual
/-- Test `n.querySelector(".c") !== null` restricted to the subtree rooted at
`n`, `n` itself included. -/
def subtreeHasClass (c : String) : Node → Bool
  | .mk _ cls cs => cls.contains c || anySubtreeHasClass c cs
/-- Some node of the forest or of its descendants has class `c`. -/
def anySubtreeHasClass (c : String) : List Node → Bool
  | [] => false
  | n :: ns => subtreeHasClass c n || anySubtreeHasClass c ns
end

/-- The four class selectors of `containerSelectors`, without the dots. -/
def sectionSelectors : List String :=
  ["form-section", "pautas-section", "dashboard-section", "content-section"]

/-- List `containersToWrap`: for each selector in order, the direct children
matching it in document order (`querySelectorAll(':scope > sel')` is a
static snapshot, taken before any node moves). -/
def groupedSectionChildren (children : List Node) : List Node :=
  sectionSelectors.flatMap (fun s => children.filter (fun e => e.hasClass s))

/-- The node matches at least one of the four section selectors. -/
def matchesAnySection (n : Node) : Bool :=
  sectionSelectors.any (fun s => n.hasClass s)

/-- Remove (at most) one node with identity `i` from a sibling list, as
the DOM does when a node is re-parented. -/
def eraseById : List Node → Nat → List Node
  | [], _ => []
  | n :: rest, i => if n.nid == i then rest else n :: eraseById rest i

/-- Step `contentArea.appendChild(container)` acting on the pair
(children of mainContent, children of contentArea): the container leaves
whichever of the two lists currently holds it and goes to the end of the
content area. -/
def appendMove (st : List Node × List Node) (e : Node) : List Node × List Node :=
  (eraseById st.1 e.nid, eraseById st.2 e.nid ++ [e])

/-- Function `autoFixFormSectionLayout()` from global.js, acting on the element
`document.querySelector(".main-content")` (`none` when absent).  Fresh
nodes created by `document.createElement` get identities 0 and 1. -/
def autoFixFormSectionLayout (mc : Option Node) : Option Node :=
  match mc with
  | none => none
  | some m =>
      if anySubtreeHasClass "page-content-wrapper" m.children then some m
      else
        let containersToWrap := groupedSectionChildren m.children
        if containersToWrap.isEmpty then some m
        else
          let final := containersToWrap.foldl appendMove (m.children, [])
          let contentArea := Node.mk 0 ["content-area"] final.2
          let pageContentWrapper := Node.mk 1 ["page-content-wrapper"] [contentArea]
          some (Node.mk m.nid m.classes (final.1 ++ [pageContentWrapper]))

/-- Claim C1 as amended: with no `authToken`, `protectPage` clears the
whole persisted store, redirects to the login page, and throws; with a
token present and a non-empty `userData` string on which `JSON.parse`
throws, it does the same.  The empty `userData` string — unparseable, but
falsy — is excluded: `if (userData)` skips the parse and the run returns
normally. -/
theorem protectPage_no_token_or_unparseable
    (jsonParse : String → Option JValue) (path : String) (st : Store) :
    (st.authToken = none →
      protectPage jsonParse path st =
        { store := Store.clearAll
          redirect := some (getBasePath path ++ "/app/login.html")
          currentUser := none
          threw := some "Não autenticado, redirecionando para login." })
    ∧ (∀ t s, st.authToken = some t → st.userData = some s → s ≠ "" →
        jsonParse s = none →
      (protectPage jsonParse path st).store = Store.clearAll
      ∧ (protectPage jsonParse path st).redirect =
          some (getBasePath path ++ "/app/login.html")
      ∧ (protectPage jsonParse path st).threw ≠ none) := by
  constructor
  · intro h
    simp [protectPage, h]
  · intro t s ht hs hsne hp
    by_cases htok : t = ""
    · subst htok
      simp [protectPage, ht]
    · simp [protectPage, ht, htok, hs, hsne, hp]

/-- Witness for the amended C1 at concrete inputs: an empty-token store,
and a store with a truthy token whose non-empty user data does not
parse. -/
theorem protectPage_no_token_or_unparseable_witness :
    protectPage (fun _ => none) "/telas2/app/x.html" ⟨none, some "u", [("k", "v")]⟩ =
      { store := Store.clearAll
        redirect := some "/telas2/app/login.html"
        currentUser := none
        threw := some "Não autenticado, redirecionando para login." }
    ∧ (protectPage (fun _ => none) "/telas2/app/x.html"
        ⟨some "tok", some "garbage", []⟩).store = Store.clearAll
    ∧ (protectPage (fun _ => none) "/telas2/app/x.html"
        ⟨some "tok", some "garbage", []⟩).redirect = some "/telas2/app/login.html"
    ∧ (protectPage (fun _ => none) "/telas2/app/x.html"
        ⟨some "tok", some "garbage", []⟩).threw ≠ none :=
  ⟨(protectPage_no_token_or_unparseable (fun _ => none) "/telas2/app/x.html" _).1 rfl,
   ((protectPage_no_token_or_unparseable (fun _ => none) "/telas2/app/x.html"
      ⟨some "tok", some "garbage", []⟩).2 "tok" "garbage" rfl rfl (by decide) rfl).1,
   ((protectPage_no_token_or_unparseable (fun _ => none) "/telas2/app/x.html"
      ⟨some "tok", some "garbage", []⟩).2 "tok" "garbage" rfl rfl (by decide) rfl).2.1,
   ((protectPage_no_token_or_unparseable (fun _ => none) "/telas2/app/x.html"
      ⟨some "tok", some "garbage", []⟩).2 "tok" "garbage" rfl rfl (by decide) rfl).2.2⟩

/-- Claim C1 counterexample: with a truthy token and the empty `userData`
string — which is unparseable, the modelled `JSON.parse` throws on it —
the program skips the parse (`if (userData)` is falsy), returns normally,
and leaves the store intact: no clear, no redirect, no throw. -/
theorem protectPage_empty_userData_counterexample :
    (fun _ => (none : Option JValue)) "" = none
    ∧ protectPage (fun _ => none) "/telas2/app/x.html" ⟨some "tok", some "", []⟩ =
        { store := ⟨some "tok", some "", []⟩
          redirect := none, currentUser := none, threw := none }
    ∧ (⟨some "tok", some "", []⟩ : Store) ≠ Store.clearAll := by
  exact ⟨rfl, rfl, by decide⟩

/-- Claim C2: with a session token (truthy: the guard's `if (!token)`
treats the empty string as no token) and a `userData` string parsing to an
object (a user record; the empty string is not parseable, hence non-empty),
`protectPage` leaves the store alone, performs no redirect, does not
throw, and exposes the parsed record as `window.currentUser`. -/
theorem protectPage_valid_session
    (jsonParse : String → Option JValue) (path : String) (st : Store)
    (t s : String) (fields : List (String × JValue)) (htok : t ≠ "")
    (ht : st.authToken = some t) (hs : st.userData = some s) (hsne : s ≠ "")
    (hp : jsonParse s = some (JValue.jobj fields)) :
    protectPage jsonParse path st =
      { store := st, redirect := none
        currentUser := some (JValue.jobj fields), threw := none } := by
  simp [protectPage, ht, htok, hs, hsne, hp]

/-- Witness for C2 at a concrete store and parse result. -/
theorem protectPage_valid_session_witness :
    protectPage (fun _ => some (JValue.jobj [("email", JValue.jstr "a@b.c"), ("role", JValue.jstr "admin")]))
        "/telas2/app/x.html" ⟨some "tok", some "{}", []⟩ =
      { store := ⟨some "tok", some "{}", []⟩
        redirect := none
        currentUser := some (JValue.jobj [("email", JValue.jstr "a@b.c"), ("role", JValue.jstr "admin")])
        threw := none } :=
  protectPage_valid_session
    (fun _ => some (JValue.jobj [("email", JValue.jstr "a@b.c"), ("role", JValue.jstr "admin")]))
    "/telas2/app/x.html" ⟨some "tok", some "{}", []⟩ "tok" "{}"
    [("email", JValue.jstr "a@b.c"), ("role", JValue.jstr "admin")]
    (by decide) rfl rfl (by decide) rfl

/-- Claim C10: with a session token present (truthy: the guard's
`if (!token)` treats the empty string as no token) but no `userData` entry
at all, `protectPage` returns normally: no redirect, no throw, store
unchanged, and no user record exposed. -/
theorem protectPage_token_without_userData
    (jsonParse : String → Option JValue) (path : String) (st : Store)
    (t : String) (htok : t ≠ "") (ht : st.authToken = some t)
    (hu : st.userData = none) :
    protectPage jsonParse path st =
      { store := st, redirect := none, currentUser := none, threw := none } := by
  simp [protectPage, ht, htok, hu]

/-- Witness for C10 at a concrete store. -/
theorem protectPage_token_without_userData_witness :
    protectPage (fun _ => none) "/telas2/app/x.html" ⟨some "tok", none, [("k", "v")]⟩ =
      { store := ⟨some "tok", none, [("k", "v")]⟩
        redirect := none, currentUser := none, threw := none } :=
  protectPage_token_without_userData (fun _ => none) "/telas2/app/x.html"
    ⟨some "tok", none, [("k", "v")]⟩ "tok" (by decide) rfl rfl

/-- Claim C9: whatever the backend outcome, `logout` removes the token and
user record (other persisted entries stay), redirects to the login page;
a present token (truthy: `if (authToken)` treats the empty string as
absent) triggers the bearer-authenticated POST to the fixed endpoint,
while a missing or falsy token sends no request, and a non-success
outcome of the sent request leaves a log entry. -/
theorem logout_always_clears_and_redirects
    (path : String) (st : Store) (outcome : LogoutFetchOutcome) :
    (logout path st outcome).store = { st with authToken := none, userData := none }
    ∧ (logout path st outcome).redirect = some (getBasePath path ++ "/app/login.html")
    ∧ (∀ t, st.authToken = some t → t ≠ "" →
        (logout path st outcome).request =
          some ⟨"/api/auth/logout", "POST", "Bearer " ++ t⟩)
    ∧ ((st.authToken = none ∨ st.authToken = some "") →
        (logout path st outcome).request = none)
    ∧ (∀ t, st.authToken = some t → t ≠ "" → outcome ≠ LogoutFetchOutcome.success →
        (logout path st outcome).logs ≠ []) := by
  cases h : st.authToken with
  | none => cases outcome <;> simp [logout, h]
  | some t =>
      by_cases ht : t = ""
      · subst ht
        cases outcome <;> simp [logout, h]
      · cases outcome <;> simp [logout, h, ht]

/-- Witness for C9: a concrete logout with a token and a failed backend
notification still issues the bearer request, logs, clears, redirects. -/
theorem logout_always_clears_and_redirects_witness :
    (logout "/telas2/app/p.html" ⟨some "tok", some "u", [("o", "v")]⟩
        LogoutFetchOutcome.failStatus).store = ⟨none, none, [("o", "v")]⟩
    ∧ (logout "/telas2/app/p.html" ⟨some "tok", some "u", [("o", "v")]⟩
        LogoutFetchOutcome.failStatus).redirect = some "/telas2/app/login.html"
    ∧ (logout "/telas2/app/p.html" ⟨some "tok", some "u", [("o", "v")]⟩
        LogoutFetchOutcome.failStatus).request =
          some ⟨"/api/auth/logout", "POST", "Bearer tok"⟩
    ∧ (logout "/telas2/app/p.html" ⟨some "tok", some "u", [("o", "v")]⟩
        LogoutFetchOutcome.failStatus).logs ≠ [] :=
  ⟨(logout_always_clears_and_redirects "/telas2/app/p.html" _ _).1,
   (logout_always_clears_and_redirects "/telas2/app/p.html" _ _).2.1,
   (logout_always_clears_and_redirects "/telas2/app/p.html" _ _).2.2.1 "tok" rfl
     (by decide),
   (logout_always_clears_and_redirects "/telas2/app/p.html" _ _).2.2.2.2 "tok" rfl
     (by decide) (by decide)⟩

/-- Claim C7: when the target element exists and the fetch ends in a
non-ok status or a transport error, `loadComponent` logs, rewrites the
target's content to the inline error naming the failed path, and returns
without propagating any exception (`Except.ok`). -/
theorem loadComponent_failure_renders_error
    (doc : Doc) (componentPath targetElementId : String)
    (outcome : FetchResult) (html : String)
    (h : getElementById doc targetElementId = some html)
    (ho : outcome = FetchResult.badStatus ∨ outcome = FetchResult.netError) :
    ∃ logs, loadComponent doc componentPath targetElementId outcome =
      Except.ok ⟨setInnerHTML doc targetElementId (componentErrorHtml componentPath),
                 [componentPath], logs⟩ ∧ logs ≠ [] := by
  rcases ho with h1 | h1 <;> subst h1
  · refine ⟨["Erro ao carregar componente: " ++ ("Componente não encontrado: " ++ componentPath)],
      ?_, by simp⟩
    simp [loadComponent, h, loadComponentTryBlock]
  · refine ⟨["Erro ao carregar componente: " ++
      "TypeError: NetworkError when attempting to fetch resource."], ?_, by simp⟩
    simp [loadComponent, h, loadComponentTryBlock]

/-- Witness for C7: a failing fetch for an existing placeholder renders
the inline error. -/
theorem loadComponent_failure_renders_error_witness :
    ∃ logs,
      loadComponent ⟨[("sidebar-placeholder", "old")]⟩
          "/telas2/components/admin_sidebar.html" "sidebar-placeholder"
          FetchResult.badStatus =
        Except.ok ⟨⟨[("sidebar-placeholder",
                      componentErrorHtml "/telas2/components/admin_sidebar.html")]⟩,
                   ["/telas2/components/admin_sidebar.html"], logs⟩
      ∧ logs ≠ [] :=
  loadComponent_failure_renders_error ⟨[("sidebar-placeholder", "old")]⟩
    "/telas2/components/admin_sidebar.html" "sidebar-placeholder"
    FetchResult.badStatus "old" rfl (Or.inl rfl)

/-- Claim C8: with no element for the target identifier, `loadComponent`
issues no network request and leaves the document unchanged. -/
theorem loadComponent_missing_target_noop
    (doc : Doc) (componentPath targetElementId : String) (outcome : FetchResult)
    (h : getElementById doc targetElementId = none) :
    loadComponent doc componentPath targetElementId outcome = Except.ok ⟨doc, [], []⟩ := by
  simp [loadComponent, h]

/-- Witness for C8 at a concrete document lacking the target id. -/
theorem loadComponent_missing_target_noop_witness :
    loadComponent ⟨[("other", "x")]⟩ "/telas2/components/app_header.html"
        "header-placeholder" (FetchResult.ok "body") =
      Except.ok ⟨⟨[("other", "x")]⟩, [], []⟩ :=
  loadComponent_missing_target_noop ⟨[("other", "x")]⟩
    "/telas2/components/app_header.html" "header-placeholder"
    (FetchResult.ok "body") rfl

/-- An association-list lookup misses every key outside the key column. -/
theorem lookup_eq_none_of_not_mem_keys {α β : Type} [BEq α] [LawfulBEq α]
    (l : List (α × β)) (a : α) (h : a ∉ l.map Prod.fst) : l.lookup a = none := by
  induction l with
  | nil => rfl
  | cons p rest ih =>
      obtain ⟨k, v⟩ := p
      simp only [List.map_cons, List.mem_cons, not_or] at h
      have hb : (a == k) = false := by simp [h.1]
      simp [List.lookup, hb, ih h.2]

/-- Claim C3: `getPageUrl "dashboard"` resolves to the admin dashboard URL
in admin context and to the app dashboard URL otherwise, and every page
name outside the page map resolves to no URL. -/
theorem getPageUrl_dashboard_and_unknown (path : String) :
    (isAdminContext path = true →
      getPageUrl path "dashboard" = some (getBasePath path ++ "/admin/dashboard_admin.html"))
    ∧ (isAdminContext path = false →
      getPageUrl path "dashboard" = some (getBasePath path ++ "/app/dashboard.html"))
    ∧ (∀ pageName, pageName ∉ pageMapKeys → getPageUrl path pageName = none) := by
  refine ⟨fun h => ?_, fun h => ?_, fun p hp => ?_⟩
  · simp [getPageUrl, pageMap, h, List.lookup]
  · simp [getPageUrl, pageMap, h, List.lookup]
  · have hpd : (p == "dashboard") = false := by
      have : p ≠ "dashboard" := by
        intro hc
        subst hc
        exact hp (by decide)
      simp [this]
    have hkey : (if isAdminContext path && p == "dashboard" then "dashboard_admin" else p)
        = p := by
      simp [hpd]
    have hkeys : (pageMap (getBasePath path)).map Prod.fst = pageMapKeys := rfl
    simp only [getPageUrl]
    rw [hkey]
    exact lookup_eq_none_of_not_mem_keys _ p (by rw [hkeys]; exact hp)

/-- Witness for C3 at concrete admin and non-admin paths, with the absent
key `unknown-key`. -/
theorem getPageUrl_dashboard_and_unknown_witness :
    getPageUrl "/telas2/admin/x.html" "dashboard" = some "/telas2/admin/dashboard_admin.html"
    ∧ getPageUrl "/telas2/app/x.html" "dashboard" = some "/telas2/app/dashboard.html"
    ∧ getPageUrl "/telas2/app/x.html" "unknown-key" = none :=
  ⟨(getPageUrl_dashboard_and_unknown "/telas2/admin/x.html").1 rfl,
   (getPageUrl_dashboard_and_unknown "/telas2/app/x.html").2.1 rfl,
   (getPageUrl_dashboard_and_unknown "/telas2/app/x.html").2.2 "unknown-key" (by decide)⟩

/-- Claim C4: a path with none of the three context markers makes
`initLayout` issue zero fragment loads; a path with a marker makes it
issue exactly the two loads for that context (admin, then app, then
portal precedence), sequentially in source order. -/
theorem initLayout_fragment_loads (path : String) :
    (strIncludes path "/admin/" = false → strIncludes path "/app/" = false →
      strIncludes path "/portal/" = false → initLayoutLoads path = [])
    ∧ (strIncludes path "/admin/" = true →
      initLayoutLoads path =
        [ (getBasePath path ++ "/components/admin_sidebar.html", "sidebar-placeholder")
        , (getBasePath path ++ "/components/admin_header.html", "header-placeholder") ])
    ∧ (strIncludes path "/admin/" = false → strIncludes path "/app/" = true →
      initLayoutLoads path =
        [ (getBasePath path ++ "/components/app_sidebar.html", "sidebar-placeholder")
        , (getBasePath path ++ "/components/app_header.html", "header-placeholder") ])
    ∧ (strIncludes path "/admin/" = false → strIncludes path "/app/" = false →
      strIncludes path "/portal/" = true →
      initLayoutLoads path =
        [ (getBasePath path ++ "/components/portal_navbar.html", "navbar-placeholder")
        , (getBasePath path ++ "/components/portal_footer.html", "footer-placeholder") ])
    ∧ ((strIncludes path "/admin/" = true ∨ strIncludes path "/app/" = true ∨
        strIncludes path "/portal/" = true) → (initLayoutLoads path).length = 2) := by
  refine ⟨fun h1 h2 h3 => ?_, fun h1 => ?_, fun h1 h2 => ?_, fun h1 h2 h3 => ?_, fun hm => ?_⟩
  · simp [initLayoutLoads, h1, h2, h3]
  · simp [initLayoutLoads, h1]
  · simp [initLayoutLoads, h1, h2]
  · simp [initLayoutLoads, h1, h2, h3]
  · by_cases h1 : strIncludes path "/admin/" = true
    · simp [initLayoutLoads, h1]
    · by_cases h2 : strIncludes path "/app/" = true
      · simp [initLayoutLoads, Bool.of_not_eq_true h1, h2]
      · rcases hm with hm | hm | hm
        · exact absurd hm h1
        · exact absurd hm h2
        · simp [initLayoutLoads, Bool.of_not_eq_true h1, Bool.of_not_eq_true h2, hm]

/-- Witness for C4: a marker-free path loads nothing, an admin path loads
the two admin fragments, a portal path loads two fragments. -/
theorem initLayout_fragment_loads_witness :
    initLayoutLoads "/telas2/index.html" = []
    ∧ initLayoutLoads "/telas2/admin/x.html" =
        [ ("/telas2/components/admin_sidebar.html", "sidebar-placeholder")
        , ("/telas2/components/admin_header.html", "header-placeholder") ]
    ∧ (initLayoutLoads "/telas2/portal/home.html").length = 2 :=
  ⟨(initLayout_fragment_loads "/telas2/index.html").1 rfl rfl rfl,
   (initLayout_fragment_loads "/telas2/admin/x.html").2.1 rfl,
   (initLayout_fragment_loads "/telas2/portal/home.html").2.2.2.2 (Or.inr (Or.inr rfl))⟩

/-- Searching a concatenated forest for a class searches both parts. -/
theorem anySubtreeHasClass_append (c : String) (l1 l2 : List Node) :
    anySubtreeHasClass c (l1 ++ l2) =
      (anySubtreeHasClass c l1 || anySubtreeHasClass c l2) := by
  induction l1 with
  | nil => simp [anySubtreeHasClass]
  | cons n ns ih => simp [anySubtreeHasClass, ih, Bool.or_assoc]

/-- A main-content node whose subtree already holds a
`page-content-wrapper` is left untouched by the auto-repair. -/
theorem autoFix_wrapper_noop (n : Node)
    (h : anySubtreeHasClass "page-content-wrapper" n.children = true) :
    autoFixFormSectionLayout (some n) = some n := by
  simp [autoFixFormSectionLayout, h]

/-- Claim C6: the layout auto-repair is idempotent — a second run finds
the wrapper the first run appended (or finds the same state the first run
left untouched) and changes nothing. -/
theorem autoFix_idempotent (mc : Option Node) :
    autoFixFormSectionLayout (autoFixFormSectionLayout mc) = autoFixFormSectionLayout mc := by
  cases mc with
  | none => rfl
  | some m =>
    by_cases hw : anySubtreeHasClass "page-content-wrapper" m.children = true
    · simp [autoFixFormSectionLayout, hw]
    · rw [Bool.not_eq_true] at hw
      by_cases he : (groupedSectionChildren m.children).isEmpty = true
      · simp [autoFixFormSectionLayout, hw, he]
      · rw [Bool.not_eq_true] at he
        have hstep : autoFixFormSectionLayout (some m) =
            some (Node.mk m.nid m.classes
              (((groupedSectionChildren m.children).foldl appendMove (m.children, [])).1 ++
               [Node.mk 1 ["page-content-wrapper"]
                 [Node.mk 0 ["content-area"]
                   (((groupedSectionChildren m.children).foldl appendMove (m.children, [])).2)]])) := by
          simp [autoFixFormSectionLayout, hw, he]
        have hw2 : anySubtreeHasClass "page-content-wrapper"
            (((groupedSectionChildren m.children).foldl appendMove (m.children, [])).1 ++
             [Node.mk 1 ["page-content-wrapper"]
               [Node.mk 0 ["content-area"]
                 (((groupedSectionChildren m.children).foldl appendMove (m.children, [])).2)]]) =
              true := by
          simp [anySubtreeHasClass_append, anySubtreeHasClass, subtreeHasClass]
        rw [hstep]
        exact autoFix_wrapper_noop _ hw2

/-- Re-parenting a node whose identity does not occur in a sibling list
leaves the list alone. -/
theorem eraseById_of_not_mem (l : List Node) (i : Nat)
    (h : i ∉ l.map Node.nid) : eraseById l i = l := by
  induction l with
  | nil => rfl
  | cons n rest ih =>
      simp only [List.map_cons, List.mem_cons, not_or] at h
      have hb : (n.nid == i) = false := by
        simp [Ne.symm h.1]
      simp [eraseById, hb, ih h.2]

/-- On a sibling list with distinct identities, removal by identity is a
filter. -/
theorem eraseById_nodup (l : List Node) (i : Nat)
    (h : (l.map Node.nid).Nodup) :
    eraseById l i = l.filter (fun e => !(e.nid == i)) := by
  induction l with
  | nil => rfl
  | cons n rest ih =>
      simp only [List.map_cons, List.nodup_cons] at h
      by_cases hb : n.nid = i
      · subst hb
        have hall : List.filter (fun e => !(e.nid == n.nid)) rest = rest := by
          rw [List.filter_eq_self]
          intro e he
          have : e.nid ≠ n.nid := by
            intro hc
            exact h.1 (by exact hc ▸ List.mem_map_of_mem Node.nid he)
          simp [this]
        simp [eraseById, hall]
      · have hb2 : (n.nid == i) = false := by simp [hb]
        simp [eraseById, hb2, ih h.2]

/-- Removing a batch of identities from a sibling list with distinct
identities keeps exactly the nodes whose identity is not in the batch. -/
theorem foldl_eraseById (ids : List Nat) (l : List Node)
    (h : (l.map Node.nid).Nodup) :
    ids.foldl eraseById l = l.filter (fun e => !(ids.contains e.nid)) := by
  induction ids generalizing l with
  | nil => simp
  | cons i rest ih =>
      rw [List.foldl_cons, eraseById_nodup l i h,
        ih _ (List.Nodup.sublist (List.Sublist.map Node.nid (List.filter_sublist l)) h),
        List.filter_filter]
      refine List.filter_congr fun e _ => ?_
      rw [List.contains_cons, Bool.not_or, Bool.and_comm]

/-- Running the `appendChild` loop over containers with pairwise distinct
identities, none already in the content area: the content area receives
them in loop order, and the main children lose exactly those identities. -/
theorem foldl_appendMove (l main acc : List Node)
    (hl : (l.map Node.nid).Nodup)
    (hacc : ∀ e ∈ l, e.nid ∉ acc.map Node.nid) :
    l.foldl appendMove (main, acc) =
      ((l.map Node.nid).foldl eraseById main, acc ++ l) := by
  induction l generalizing main acc with
  | nil => simp
  | cons e rest ih =>
      simp only [List.map_cons, List.nodup_cons] at hl
      have hacc2 : ∀ e2 ∈ rest, e2.nid ∉ (acc ++ [e]).map Node.nid := by
        intro e2 he2
        simp only [List.map_append, List.mem_append, not_or]
        refine ⟨hacc e2 (List.mem_cons_of_mem e he2), ?_⟩
        simp only [List.map_cons, List.map_nil, List.mem_singleton]
        intro hc
        exact hl.1 (hc ▸ List.mem_map_of_mem Node.nid he2)
      rw [List.foldl_cons, List.map_cons, List.foldl_cons]
      show List.foldl appendMove (eraseById main e.nid, eraseById acc e.nid ++ [e]) rest = _
      rw [eraseById_of_not_mem acc e.nid (hacc e (List.mem_cons_self e rest))]
      rw [ih (eraseById main e.nid) (acc ++ [e]) hl.2 hacc2]
      simp

/-- Membership in the collected container list. -/
theorem mem_groupedSectionChildren (children : List Node) (e : Node) :
    e ∈ groupedSectionChildren children ↔
      e ∈ children ∧ ∃ s ∈ sectionSelectors, e.hasClass s = true := by
  simp only [groupedSectionChildren, List.mem_flatMap, List.mem_filter]
  constructor
  · rintro ⟨s, hs, he, hc⟩
    exact ⟨he, s, hs, hc⟩
  · rintro ⟨he, s, hs, hc⟩
    exact ⟨s, hs, he, hc⟩

/-- With distinct identities, an identity occurs among the collected
containers exactly when its node matches one of the section selectors. -/
theorem contains_grouped_iff (children : List Node)
    (hnd : (children.map Node.nid).Nodup) (e : Node) (he : e ∈ children) :
    ((groupedSectionChildren children).map Node.nid).contains e.nid =
      matchesAnySection e := by
  cases hm : matchesAnySection e with
  | true =>
      simp only [matchesAnySection, List.any_eq_true] at hm
      obtain ⟨s, hs, hc⟩ := hm
      have hmem : e ∈ groupedSectionChildren children :=
        (mem_groupedSectionChildren children e).2 ⟨he, s, hs, hc⟩
      exact List.elem_eq_true_of_mem (List.mem_map_of_mem Node.nid hmem)
  | false =>
      rw [Bool.eq_false_iff]
      intro hc
      rw [List.contains_iff_exists_mem_beq] at hc
      obtain ⟨i, hi, hbeq⟩ := hc
      obtain ⟨e2, he2, rfl⟩ := List.mem_map.1 hi
      have he2c := (mem_groupedSectionChildren children e2).1 he2
      have heq : e2 = e :=
        List.inj_on_of_nodup_map hnd he2c.1 he (by simpa using (beq_iff_eq.1 hbeq).symm)
      obtain ⟨s, hs, hcl⟩ := he2c.2
      have : matchesAnySection e = true := by
        subst heq
        simp only [matchesAnySection, List.any_eq_true]
        exact ⟨s, hs, hcl⟩
      rw [this] at hm
      exact absurd hm (by decide)

/-- Two distinct section selectors collect containers with disjoint
identities, when identities are distinct and every child carries at most
one of the section class names. -/
theorem disjoint_filter_classes (children : List Node)
    (hnd : (children.map Node.nid).Nodup)
    (hone : ∀ e ∈ children, ∀ s1 ∈ sectionSelectors, ∀ s2 ∈ sectionSelectors,
      e.hasClass s1 = true → e.hasClass s2 = true → s1 = s2)
    (s1 s2 : String) (hs1 : s1 ∈ sectionSelectors) (hs2 : s2 ∈ sectionSelectors)
    (hne : s1 ≠ s2) :
    List.Disjoint ((children.filter (fun e => e.hasClass s1)).map Node.nid)
      ((children.filter (fun e => e.hasClass s2)).map Node.nid) := by
  intro i hi1 hi2
  obtain ⟨e1, he1, rfl⟩ := List.mem_map.1 hi1
  obtain ⟨e2, he2, heq⟩ := List.mem_map.1 hi2
  rw [List.mem_filter] at he1 he2
  have : e2 = e1 := List.inj_on_of_nodup_map hnd he2.1 he1.1 heq
  subst this
  exact hne (hone e2 he2.1 s1 hs1 s2 hs2 he1.2 he2.2)

/-- The collected containers have pairwise distinct identities, when the
direct children do and each child carries at most one section class. -/
theorem nodup_grouped (children : List Node)
    (hnd : (children.map Node.nid).Nodup)
    (hone : ∀ e ∈ children, ∀ s1 ∈ sectionSelectors, ∀ s2 ∈ sectionSelectors,
      e.hasClass s1 = true → e.hasClass s2 = true → s1 = s2) :
    ((groupedSectionChildren children).map Node.nid).Nodup := by
  unfold groupedSectionChildren
  rw [List.map_flatMap]
  refine List.nodup_flatMap.2 ⟨fun s _ => ?_, ?_⟩
  · exact List.Nodup.sublist (List.Sublist.map Node.nid (List.filter_sublist children)) hnd
  · refine List.pairwise_iff_forall_sublist.2 ?_
    intro s1 s2 hsub
    have hs1 : s1 ∈ sectionSelectors :=
      hsub.subset (List.mem_cons_self s1 [s2])
    have hs2 : s2 ∈ sectionSelectors :=
      hsub.subset (List.mem_cons_of_mem s1 (List.mem_cons_self s2 []))
    have hne : s1 ≠ s2 := by
      rintro rfl
      have := List.Nodup.sublist hsub (by decide)
      simp at this
    exact disjoint_filter_classes children hnd hone s1 s2 hs1 hs2 hne

/-- Claim C5 as amended: when the main content area exists, holds no
wrapper, and has matching direct children (with distinct node identities,
each carrying at most one of the four section class names), the repair
moves exactly the matching children into the new `content-area` inside the
new `page-content-wrapper`, ordered by the four class names in the fixed
selector order — document order is preserved within each class group, not
overall — while the non-matching children stay in place and the wrapper is
appended last. -/
theorem autoFix_grouped_order (m : Node)
    (hw : anySubtreeHasClass "page-content-wrapper" m.children = false)
    (hnd : (m.children.map Node.nid).Nodup)
    (hone : ∀ e ∈ m.children, ∀ s1 ∈ sectionSelectors, ∀ s2 ∈ sectionSelectors,
      e.hasClass s1 = true → e.hasClass s2 = true → s1 = s2)
    (hne : groupedSectionChildren m.children ≠ []) :
    autoFixFormSectionLayout (some m) =
      some (Node.mk m.nid m.classes
        ((m.children.filter (fun e => !matchesAnySection e)) ++
         [Node.mk 1 ["page-content-wrapper"]
           [Node.mk 0 ["content-area"] (groupedSectionChildren m.children)]])) := by
  have he : (groupedSectionChildren m.children).isEmpty = false :=
    List.isEmpty_eq_false.2 hne
  have hfold := foldl_appendMove (groupedSectionChildren m.children) m.children []
    (nodup_grouped m.children hnd hone) (by simp)
  have herase :=
    foldl_eraseById ((groupedSectionChildren m.children).map Node.nid) m.children hnd
  have hfilter :
      m.children.filter
          (fun e => !(((groupedSectionChildren m.children).map Node.nid).contains e.nid)) =
        m.children.filter (fun e => !matchesAnySection e) :=
    List.filter_congr fun e heM => by rw [contains_grouped_iff m.children hnd e heM]
  have hstep : autoFixFormSectionLayout (some m) =
      some (Node.mk m.nid m.classes
        (((groupedSectionChildren m.children).foldl appendMove (m.children, [])).1 ++
         [Node.mk 1 ["page-content-wrapper"]
           [Node.mk 0 ["content-area"]
             (((groupedSectionChildren m.children).foldl appendMove (m.children, [])).2)]])) := by
    simp [autoFixFormSectionLayout, hw, he]
  rw [hstep, hfold]
  simp only [List.nil_append]
  rw [herase, hfilter]

/-- Claim C5 counterexample: with direct children `pautas-section` then
`form-section` (document order), the repair fills the content area in
selector-group order (`form-section` first), not document order, refuting
the order clause of the claim at this input. -/
theorem autoFix_document_order_counterexample :
    autoFixFormSectionLayout (some (Node.mk 5 ["main-content"]
        [Node.mk 10 ["pautas-section"] [], Node.mk 11 ["form-section"] []])) =
      some (Node.mk 5 ["main-content"]
        [Node.mk 1 ["page-content-wrapper"]
          [Node.mk 0 ["content-area"]
            [Node.mk 11 ["form-section"] [], Node.mk 10 ["pautas-section"] []]]])
    ∧ autoFixFormSectionLayout (some (Node.mk 5 ["main-content"]
        [Node.mk 10 ["pautas-section"] [], Node.mk 11 ["form-section"] []])) ≠
      some (Node.mk 5 ["main-content"]
        [Node.mk 1 ["page-content-wrapper"]
          [Node.mk 0 ["content-area"]
            [Node.mk 10 ["pautas-section"] [], Node.mk 11 ["form-section"] []]]]) := by
  constructor
  · rfl
  · have hact : autoFixFormSectionLayout (some (Node.mk 5 ["main-content"]
        [Node.mk 10 ["pautas-section"] [], Node.mk 11 ["form-section"] []])) =
      some (Node.mk 5 ["main-content"]
        [Node.mk 1 ["page-content-wrapper"]
          [Node.mk 0 ["content-area"]
            [Node.mk 11 ["form-section"] [], Node.mk 10 ["pautas-section"] []]]]) := rfl
    intro h
    rw [hact] at h
    simp at h

/-- Witness for the amended C5 at a concrete two-child main content area. -/
theorem autoFix_grouped_order_witness :
    autoFixFormSectionLayout (some (Node.mk 5 ["main-content"]
        [Node.mk 10 ["pautas-section"] [], Node.mk 11 ["form-section"] []])) =
      some (Node.mk 5 ["main-content"]
        [Node.mk 1 ["page-content-wrapper"]
          [Node.mk 0 ["content-area"]
            [Node.mk 11 ["form-section"] [], Node.mk 10 ["pautas-section"] []]]]) :=
  autoFix_grouped_order
    (Node.mk 5 ["main-content"]
      [Node.mk 10 ["pautas-section"] [], Node.mk 11 ["form-section"] []])
    rfl (by decide) (by decide) (List.cons_ne_nil _ _)
